import Mathlib

/-!
Shallow embedding of the streamwizard-backend event ingestion core:
the EventSub handler registry and dispatcher
(`src/apps/rest-api/src/handlers/eventHandler.ts`), the webhook
verification middleware and route
(`twitchEventSubVerification`, `handleTwitchEventSub`), the
`TwitchEventSubReceiver` WebSocket session logic
(`src/packages/twitch-eventsub/src/index.ts`), and the
`TwitchApiBaseClient` axios interceptors.

JavaScript async functions that may reject are modelled by `JsResult`;
observable side effects (log lines, DB lookups, context construction,
handler invocation) are recorded in an explicit action trace.
-/

namespace StreamWizard

/-- Result of a JavaScript (async) computation: either a normal value or a
thrown/rejected error carrying a message. -/
inductive JsResult (α : Type) where
  | ok (a : α)
  | thrown (msg : String)
deriving DecidableEq, Repr

/-- A record one level inside the `data` array of an EventSub event payload,
restricted to the two fields `extractReceivingBroadcasterId` inspects
(string-valued JSON fields; an absent field is `none`). -/
structure NestedEventRecord where
  to_broadcaster_user_id : Option String
  broadcaster_user_id : Option String
deriving DecidableEq, Repr

/-- An EventSub event payload, restricted to the fields that
`extractReceivingBroadcasterId` inspects.  `data` is the nested array
(`[]` both when the field is absent and when the array is empty, since the
source only reads it when `Array.isArray(event.data) && event.data.length > 0`). -/
structure EventSubEvent where
  to_broadcaster_user_id : Option String
  broadcaster_user_id : Option String
  data : List NestedEventRecord
deriving DecidableEq, Repr

/-- JavaScript truthiness of an optional string field: `undefined`/absent and
the empty string are falsy.  The source guards the top-level fields with
`typeof x === "string" && x` and the nested fields with plain truthiness;
over string-valued fields both reduce to this test. -/
def jsTruthy : Option String → Bool
  | some s => s ≠ ""
  | none => false

/-- The event argument handed to `processTwitchEvent`: in the webhook path the
destructured `payload.event` may be `undefined`, modelled as `none`. -/
def Ev : Type := Option EventSubEvent

instance : DecidableEq Ev := by unfold Ev; infer_instance

instance : Repr Ev := by unfold Ev; infer_instance

/-- Embedding of `extractReceivingBroadcasterId` (eventHandler.ts): prefer a
truthy top-level `to_broadcaster_user_id`, then top-level
`broadcaster_user_id`, then the same two fields on the first element of a
non-empty nested `data` array; otherwise `null`.  A `none` event (`undefined`
in JS) is falsy, so the function returns `null` for it. -/
def extractReceivingBroadcasterId : Ev → Option String
  | none => none
  | some e =>
    if jsTruthy e.to_broadcaster_user_id then e.to_broadcaster_user_id
    else if jsTruthy e.broadcaster_user_id then e.broadcaster_user_id
    else
      match e.data with
      | [] => none
      | d0 :: _ =>
        if jsTruthy d0.to_broadcaster_user_id then d0.to_broadcaster_user_id
        else if jsTruthy d0.broadcaster_user_id then d0.broadcaster_user_id
        else none

/-- The `TwitchApi` client, reduced to the tenant identity it is constructed
with (`new TwitchApi(broadcasterId)`). -/
structure TwitchApi where
  broadcaster_id : String
deriving DecidableEq, Repr

/-- Context passed to all Twitch event handlers in rest-api. -/
structure RestApiHandlerContext where
  twitchApi : TwitchApi
deriving DecidableEq, Repr

/-- One registry entry as produced by `registerTwitchHandler`: the optional
zod schema (`schema.parse`, which may throw) and the application handler
(which may throw/reject).  When no schema is supplied the source uses the
raw data unchanged, modelled by a validator `JsResult.ok`. -/
structure RegEntry where
  validate : Ev → JsResult Ev
  handler : Ev → RestApiHandlerContext → JsResult Unit

/-- Observable actions of the dispatcher, in program order. -/
inductive Action where
  | logLine (s : String)
  | dbLookup (broadcasterId : String)
  | handlerMapLookup (eventType : String)
  | buildTwitchApi (broadcasterId : String)
  | handlerInvoked (eventType : String)
deriving DecidableEq, Repr

/-- Result of running one dispatcher or wrapped-handler call: the JS outcome
(normal return or thrown) plus the trace of observable actions. -/
structure RunResult where
  result : JsResult Unit
  actions : List Action
deriving DecidableEq, Repr

/-- Embedding of the wrapper installed by `registerTwitchHandler`: run the
validator, then the handler, inside one `try`/`catch` that logs and swallows
any exception.  The wrapped handler itself always resolves normally. -/
def runWrapped (entry : RegEntry) (eventType : String) (data : Ev)
    (context : RestApiHandlerContext) : RunResult :=
  match entry.validate data with
  | .thrown _e => ⟨.ok (), [.logLine ("Error in handler for " ++ eventType)]⟩
  | .ok parsedData =>
    match entry.handler parsedData context with
    | .thrown _e =>
      ⟨.ok (), [.handlerInvoked eventType,
                .logLine ("Error in handler for " ++ eventType)]⟩
    | .ok () => ⟨.ok (), [.handlerInvoked eventType]⟩

/-- The handler map built by `registerTwitchHandlers`, as a lookup function
(`Map.get` returning `undefined` is `none`). -/
def Registry : Type := String → Option RegEntry

/-- The supabase single-row lookup
`from("integrations_twitch").select("user_id").eq("twitch_user_id", id).single()`:
`.error _` covers both a query error and a missing row (the source treats
`broadcasterError || !broadcaster` identically), `.ok userId` a found row. -/
def Db : Type := String → Except Unit String

/-- Embedding of `HandlerRegistry.processTwitchEvent`: extract the receiving
broadcaster id (throwing when none is found), look the broadcaster up in the
database (dropping the event when absent or on error), look up a handler for
the event type (dropping when none), then build a tenant-scoped `TwitchApi`
context and invoke the wrapped handler. -/
def processTwitchEvent (reg : Registry) (db : Db) (eventType : String)
    (data : Ev) : RunResult :=
  match extractReceivingBroadcasterId data with
  | none =>
    ⟨.thrown "No broadcaster id found in event",
     [.logLine "No broadcaster id found in event"]⟩
  | some broadcasterId =>
    match db broadcasterId with
    | .error () =>
      ⟨.ok (), [.dbLookup broadcasterId,
                .logLine "Broadcaster not found in database"]⟩
    | .ok _userId =>
      match reg eventType with
      | none =>
        ⟨.ok (), [.dbLookup broadcasterId, .handlerMapLookup eventType,
                  .logLine ("No handler found for event type: " ++ eventType)]⟩
      | some entry =>
        let context : RestApiHandlerContext := ⟨⟨broadcasterId⟩⟩
        let r := runWrapped entry eventType data context
        ⟨r.result,
         [.dbLookup broadcasterId, .handlerMapLookup eventType,
          .buildTwitchApi broadcasterId] ++ r.actions⟩

/-- Dispatch a sequence of `(eventType, event)` pairs through
`processTwitchEvent`, collecting the result of each call. -/
def dispatchList (reg : Registry) (db : Db) (events : List (String × Ev)) :
    List RunResult :=
  events.map (fun p => processTwitchEvent reg db p.fst p.snd)

/-! Webhook transport: verification middleware and route
(`twitchEventSubVerification`, `handleTwitchEventSub`). -/

/-- Header-name constants from `utils/twitch-eventsub.ts`. -/
def TWITCH_MESSAGE_ID : String := "twitch-eventsub-message-id"

def TWITCH_MESSAGE_TIMESTAMP : String := "twitch-eventsub-message-timestamp"

def TWITCH_MESSAGE_SIGNATURE : String := "twitch-eventsub-message-signature"

def TWITCH_MESSAGE_TYPE : String := "twitch-eventsub-message-type"

def MESSAGE_TYPE_VERIFICATION : String := "webhook_callback_verification"

def MESSAGE_TYPE_NOTIFICATION : String := "notification"

def MESSAGE_TYPE_REVOCATION : String := "revocation"

/-- Lower-casing of a string for the case-insensitive header comparison
(`key.toLowerCase() === lowerName`), as the character list of the string
mapped through `Char.toLower`. -/
def strToLower (s : String) : List Char := s.data.map Char.toLower

/-- Embedding of `getTwitchHeader`: case-insensitive scan of the header
entries, returning the first value whose key matches. -/
def getTwitchHeader (headers : List (String × String)) (headerName : String) :
    Option String :=
  (headers.find? (fun kv => strToLower kv.fst = strToLower headerName)).map
    (·.snd)

/-- JavaScript falsiness of a `string | null` value (`!x`): `null` and the
empty string are falsy. -/
def jsFalsyStr : Option String → Bool
  | none => true
  | some s => s = ""

/-- An inbound webhook request: raw header entries and raw body text. -/
structure WebhookRequest where
  headers : List (String × String)
  rawBody : String
deriving DecidableEq, Repr

/-- The subscription object embedded in every EventSub webhook payload,
restricted to the fields the route reads. -/
structure SubscriptionMeta where
  id : String
  type : String
deriving DecidableEq, Repr

/-- The JSON body of a webhook message, restricted to the fields the route
reads: the verification `challenge` (absent on notifications), the
`subscription` metadata, and the `event` record (absent on verification and
revocation messages). -/
structure NotificationBody where
  challenge : Option String
  subscription : SubscriptionMeta
  event : Ev
deriving DecidableEq, Repr

/-- A webhook HTTP response body: the JSON error objects the middleware and
route produce, plain text (the echoed challenge), or the empty body of a
`c.body(null, 204)`. -/
inductive RespBody where
  | jsonError
  | text (s : String)
  | empty
deriving DecidableEq, Repr

/-- A webhook HTTP response: status code and body. -/
structure Response where
  status : Nat
  body : RespBody
deriving DecidableEq, Repr

instance : DecidableEq (Except String Response) := fun a b =>
  match a, b with
  | .ok x, .ok y =>
    if h : x = y then isTrue (by rw [h]) else isFalse (by simp [h])
  | .error x, .error y =>
    if h : x = y then isTrue (by rw [h]) else isFalse (by simp [h])
  | .ok _, .error _ => isFalse (by simp)
  | .error _, .ok _ => isFalse (by simp)

/-- Signature verification as consumed by the middleware: a function of
`(messageId, timestamp, rawBody, receivedSignature)`.  `verifySignature`
computes `"sha256=" + hex(HMAC-SHA256(secret, id ++ ts ++ body))` and
compares in constant time; the pipeline only observes the boolean. -/
def Verify : Type := String → String → String → String → Bool

/-- `JSON.parse` of the raw body into the fields the route reads; `none`
is a parse failure (the middleware catches it and responds 400). -/
def Parse : Type := String → Option NotificationBody

/-- Embedding of `handleEventsub` (`function/handle-eventsub.ts`): destructure
`{subscription, event}` and call `processTwitchEvent(subscription.type, event)`.
A `.thrown` result rejects through the route handler. -/
def handleEventsub (reg : Registry) (db : Db) (payload : NotificationBody) :
    RunResult :=
  processTwitchEvent reg db payload.subscription.type payload.event

/-- Embedding of the full webhook pipeline: the
`twitchEventSubVerification` middleware (required-header check, signature
verification, JSON parse) followed by `handleTwitchEventSub` routing on the
message-type header (`handleVerification` / `handleNotification` /
`handleRevocation`, unknown types answered 204).  `Except.error e` is an
exception escaping the route handler (a rejected `handleEventsub` call);
`Except.ok r` is the HTTP response produced. -/
def handleWebhookRequest (verify : Verify) (parse : Parse) (reg : Registry)
    (db : Db) (req : WebhookRequest) : Except String Response :=
  let messageId := getTwitchHeader req.headers TWITCH_MESSAGE_ID
  let timestamp := getTwitchHeader req.headers TWITCH_MESSAGE_TIMESTAMP
  let signature := getTwitchHeader req.headers TWITCH_MESSAGE_SIGNATURE
  let messageType := getTwitchHeader req.headers TWITCH_MESSAGE_TYPE
  if jsFalsyStr messageId ∨ jsFalsyStr timestamp ∨ jsFalsyStr signature ∨
      jsFalsyStr messageType then
    .ok ⟨400, .jsonError⟩
  else
    let mid := messageId.getD ""
    let ts := timestamp.getD ""
    let sig := signature.getD ""
    let mt := messageType.getD ""
    if ¬ verify mid ts req.rawBody sig then
      .ok ⟨403, .jsonError⟩
    else
      match parse req.rawBody with
      | none => .ok ⟨400, .jsonError⟩
      | some body =>
        if mt = MESSAGE_TYPE_VERIFICATION then
          match body.challenge with
          | none => .ok ⟨400, .jsonError⟩
          | some c => if c = "" then .ok ⟨400, .jsonError⟩
                      else .ok ⟨200, .text c⟩
        else if mt = MESSAGE_TYPE_NOTIFICATION then
          match (handleEventsub reg db body).result with
          | .thrown e => .error e
          | .ok () => .ok ⟨204, .empty⟩
        else if mt = MESSAGE_TYPE_REVOCATION then
          .ok ⟨204, .empty⟩
        else
          .ok ⟨204, .empty⟩

/-! WebSocket session logic (`TwitchEventSubReceiver`,
`src/packages/twitch-eventsub/src/index.ts`).  Delays are in milliseconds;
`Math.random() * 1000` is modelled by an explicit jitter parameter in
`[0, 1000)`. -/

/-- Embedding of `getReconnectDelay`:
`min(baseReconnectDelay * 2^reconnectAttempts, maxReconnectDelay)` plus the
jitter `Math.random() * 1000`. -/
def getReconnectDelay (baseReconnectDelay maxReconnectDelay : ℚ)
    (reconnectAttempts : ℕ) (jitter : ℚ) : ℚ :=
  min (baseReconnectDelay * 2 ^ reconnectAttempts) maxReconnectDelay + jitter

/-- Default `baseReconnectDelay` (ms). -/
def defaultBaseReconnectDelay : ℚ := 1000

/-- Default `maxReconnectDelay` (ms). -/
def defaultMaxReconnectDelay : ℚ := 30000

/-- Embedding of the `switch (closeCode)` in `handleClose`, applied after the
state is set to `disconnected` and the socket cleaned up.  Returns the
resulting `reconnectUrl` field and whether `scheduleReconnect()` was called:
4001 returns without reconnecting; 4003 and 4007 clear the reconnect URL and
schedule; 1000 schedules only when a reconnect URL is stored; every other
code schedules with the stored URL untouched. -/
def handleCloseDecision (closeCode : ℕ) (reconnectUrl : Option String) :
    Option String × Bool :=
  match closeCode with
  | 4001 => (reconnectUrl, false)
  | 4003 => (none, true)
  | 4007 => (none, true)
  | 1000 => (reconnectUrl, reconnectUrl.isSome)
  | _ => (reconnectUrl, true)

/-- Embedding of `startKeepaliveTimer`: the first `checkKeepalive` run is
scheduled `(timeoutSeconds + 2) * 1000` ms in the future. -/
def startKeepaliveDelayMs (timeoutSeconds : ℕ) : ℕ :=
  (timeoutSeconds + 2) * 1000

/-- Outcome of one `checkKeepalive` run: the updated `missedKeepalives`
counter, whether `ws.close()` was forced, and the delay (ms) of the next
scheduled check (`none` when the close path returned without rescheduling). -/
structure KeepaliveStep where
  missedKeepalives : ℕ
  closedSocket : Bool
  nextCheckDelayMs : Option ℕ
deriving DecidableEq, Repr

/-- Embedding of `checkKeepalive`: compare `now - lastKeepaliveTime` against
`keepaliveInterval * 1000 + 2000`; when exceeded increment `missedKeepalives`
and, at `maxMissedKeepalives`, close the socket and return; otherwise
schedule the next check `keepaliveInterval * 1000` ms later.  `now` and
`lastKeepaliveTime` are `Date.now()` timestamps with `now ≥ lastKeepaliveTime`
in every reachable state, so `ℕ` subtraction agrees with JS subtraction. -/
def checkKeepalive (keepaliveInterval now lastKeepaliveTime missedKeepalives
    maxMissedKeepalives : ℕ) : KeepaliveStep :=
  if now - lastKeepaliveTime > keepaliveInterval * 1000 + 2000 then
    let m := missedKeepalives + 1
    if m ≥ maxMissedKeepalives then ⟨m, true, none⟩
    else ⟨m, false, some (keepaliveInterval * 1000)⟩
  else ⟨missedKeepalives, false, some (keepaliveInterval * 1000)⟩

/-- Connection state of the receiver. -/
inductive ConnectionState where
  | disconnected
  | connecting
  | connected
  | reconnecting
deriving DecidableEq, Repr

/-- The receiver fields touched by `connect` / `reconnect` / the `onopen`
callback. -/
structure ReceiverState where
  connectionState : ConnectionState
  reconnectAttempts : ℕ
  reconnectUrl : Option String
deriving DecidableEq, Repr

/-- Observable actions of the connect/reconnect path. -/
inductive ConnAction where
  | openedSocket (url : Option String)
  | scheduledReconnect
  | gaveUp
deriving DecidableEq, Repr

/-- Embedding of `connect()`: a no-op when already `connecting`/`connected`;
otherwise set `connecting` and construct the WebSocket on the base URL
(`ctorThrows` models the `try`/`catch` around construction, which resets
the state to `disconnected` and rethrows).  The attempt counter is not
touched; it is reset only by the `onopen` callback. -/
def connectStep (s : ReceiverState) (ctorThrows : Bool) :
    ReceiverState × List ConnAction :=
  if s.connectionState = .connecting ∨ s.connectionState = .connected then
    (s, [])
  else if ctorThrows then
    ({ s with connectionState := .disconnected }, [])
  else
    ({ s with connectionState := .connecting }, [.openedSocket none])

/-- Embedding of `reconnect()`: skip when already `connecting`/`reconnecting`;
give up (state `disconnected`) at the attempt ceiling; otherwise set
`reconnecting`, increment `reconnectAttempts`, and either open the stored
reconnect URL — on success immediately setting `connected` and resetting the
counter to 0, on constructor throw scheduling another reconnect — or, with no
stored URL, fall through to `connect()`. -/
def reconnectStep (maxReconnectAttempts : ℕ) (s : ReceiverState)
    (ctorThrows : Bool) : ReceiverState × List ConnAction :=
  if s.connectionState = .connecting ∨ s.connectionState = .reconnecting then
    (s, [])
  else if s.reconnectAttempts ≥ maxReconnectAttempts then
    ({ s with connectionState := .disconnected }, [.gaveUp])
  else
    let s1 : ReceiverState :=
      { s with connectionState := .reconnecting,
               reconnectAttempts := s.reconnectAttempts + 1 }
    match s.reconnectUrl with
    | some url =>
      if ctorThrows then (s1, [.scheduledReconnect])
      else ({ s1 with connectionState := .connected, reconnectAttempts := 0 },
            [.openedSocket (some url)])
    | none => connectStep s1 ctorThrows

/-- Embedding of the `onopen` callback: mark `connected` and reset the
reconnect attempt counter. -/
def onOpen (s : ReceiverState) : ReceiverState :=
  { s with connectionState := .connected, reconnectAttempts := 0 }

/-! Outbound API client (`TwitchApiBaseClient`, part_003): the per-tenant
response interceptor with its bounded 401 retry, and the app-token request
interceptor. -/

/-- `TwitchApiBaseClient.MAX_RETRIES`. -/
def MAX_RETRIES : ℕ := 2

/-- Outcome of one wire request as seen by the response interceptor. -/
inductive ReqOutcome where
  | success
  | httpError (status : ℕ)
deriving DecidableEq, Repr

/-- Outcome of one `refreshUserToken` call: a thrown/rejected promise, or a
returned `string | null` token (the interceptor rejects with the original
error when the returned token is falsy). -/
inductive RefreshOutcome where
  | threw
  | returned (token : Option String)
deriving DecidableEq, Repr

/-- What the caller of an outbound request observes. -/
inductive CallOutcome where
  | ok
  | errHttp (status : ℕ)
  | errRefresh
deriving DecidableEq, Repr

/-- Trace of one outbound call: its outcome, the number of wire requests
issued, and the number of token-refresh calls issued. -/
structure CallTrace where
  outcome : CallOutcome
  requests : ℕ
  refreshes : ℕ
deriving DecidableEq, Repr

/-- Embedding of the `clientInterceptor` response-error path.  `responses i`
is the outcome of wire request number `i` of this call, `refresh j` the
outcome of refresh number `j`.  `remaining` is `MAX_RETRIES - __retryCount`
for the retry counter the source stashes on the request config
(`config.__retryCount`, starting at 0 for each outbound call), so the source
guard `statusCode === 401 && currentRetryCount < MAX_RETRIES` is
`status = 401` with `remaining` still positive.  A non-401 error, an
exhausted counter, a throwing refresh, or a falsy refreshed token all
reject; a successful refresh re-issues the request through the same
interceptor with the incremented counter. -/
def runClientCall (responses : ℕ → ReqOutcome) (refresh : ℕ → RefreshOutcome)
    (requestsMade refreshesMade remaining : ℕ) : CallTrace :=
  match responses requestsMade with
  | .success => ⟨.ok, requestsMade + 1, refreshesMade⟩
  | .httpError status =>
    if status = 401 then
      match remaining with
      | 0 => ⟨.errHttp status, requestsMade + 1, refreshesMade⟩
      | r + 1 =>
        match refresh refreshesMade with
        | .threw => ⟨.errRefresh, requestsMade + 1, refreshesMade + 1⟩
        | .returned tok =>
          if jsFalsyStr tok then
            ⟨.errHttp status, requestsMade + 1, refreshesMade + 1⟩
          else
            runClientCall responses refresh (requestsMade + 1)
              (refreshesMade + 1) r
    else ⟨.errHttp status, requestsMade + 1, refreshesMade⟩

/-- One outbound per-tenant API call: the retry counter starts at 0 on the
fresh request config of this call, i.e. `remaining = MAX_RETRIES`. -/
def clientRequest (responses : ℕ → ReqOutcome)
    (refresh : ℕ → RefreshOutcome) : CallTrace :=
  runClientCall responses refresh 0 0 MAX_RETRIES

/-- The stored app-token row returned by `getTwitchAppToken`.  `updated_at`
is the parsed timestamp `new Date(updated_at).getTime()` in ms. -/
structure TwitchAppTokenRow where
  access_token : String
  expires_in : ℕ
  updated_at : ℕ
deriving DecidableEq, Repr

/-- Embedding of `checkTokenExpiry`:
`Date.now() > updatedAtTimestamp + expires_in * 1000`. -/
def checkTokenExpiry (updated_at expires_in now : ℕ) : Bool :=
  updated_at + expires_in * 1000 < now

/-- Embedding of the `appInterceptor` request path: read the stored app
token; when `checkTokenExpiry` says it is expired, call `refreshAppToken`
(`refreshResult`; a throw rejects, a falsy token rejects with
"Failed to refresh app token", otherwise the local `token` variable is
reassigned) — and then set `Authorization` from the template
`` `Bearer ${access_token}` ``, i.e. from the PRE-refresh row value, never
from `token`.  The result carries the Authorization header value and
whether a refresh call was issued. -/
def appInterceptorRequest (row : TwitchAppTokenRow) (now : ℕ)
    (refreshResult : JsResult (Option String)) : JsResult (String × Bool) :=
  if checkTokenExpiry row.updated_at row.expires_in now then
    match refreshResult with
    | .thrown e => .thrown e
    | .ok newToken =>
      if jsFalsyStr newToken then .thrown "Failed to refresh app token"
      else .ok ("Bearer " ++ row.access_token, true)
  else .ok ("Bearer " ++ row.access_token, false)

/-! Concrete fixtures used by counterexamples and witnesses. -/

/-- A registry with no handlers registered. -/
def emptyRegistry : Registry := fun _ => none

/-- A database in which no broadcaster row is found. -/
def emptyDb : Db := fun _ => .error ()

/-- A database resolving every broadcaster id to one user row. -/
def allKnownDb : Db := fun _ => .ok "user-1"

/-- An event payload carrying no tenant identifier anywhere. -/
def noTenantEvent : Ev := some ⟨none, none, []⟩

/-- An event payload whose top-level `broadcaster_user_id` is `"42"`. -/
def broadcasterEvent : Ev := some ⟨none, some "42", []⟩

/-- A registry entry whose handler always throws. -/
def throwingEntry : RegEntry := ⟨fun d => .ok d, fun _ _ => .thrown "boom"⟩

/-- A registry entry whose handler succeeds. -/
def okEntry : RegEntry := ⟨fun d => .ok d, fun _ _ => .ok ()⟩

/-- A registry with a throwing handler for `channel.follow` and a normal
handler for `stream.online`. -/
def twoTypeRegistry : Registry := fun t =>
  if t = "channel.follow" then some throwingEntry
  else if t = "stream.online" then some okEntry
  else none

/-! Theorems. -/

/-- Claim C1, counterexample: a dispatched notification whose payload has no
resolvable tenant identifier is NOT dropped quietly — `processTwitchEvent`
throws `Error("No broadcaster id found in event")` at this concrete payload,
so the "does not throw" part of the claim is false on the code. -/
theorem c1_counterexample :
    (processTwitchEvent emptyRegistry emptyDb "channel.follow"
        noTenantEvent).result = JsResult.thrown "No broadcaster id found in event" ∧
    (processTwitchEvent emptyRegistry emptyDb "channel.follow"
        noTenantEvent).result ≠ JsResult.ok () := by
  refine ⟨rfl, ?_⟩
  decide

/-- Claim C1 as amended: for every dispatched notification whose payload
contains no resolvable tenant identifier, `processTwitchEvent` logs exactly
one line, invokes no handler, performs no database lookup, and THROWS the
error "No broadcaster id found in event" (rather than returning normally). -/
theorem c1_amended_throws (reg : Registry) (db : Db) (eventType : String)
    (data : Ev) (h : extractReceivingBroadcasterId data = none) :
    processTwitchEvent reg db eventType data =
      ⟨JsResult.thrown "No broadcaster id found in event",
       [Action.logLine "No broadcaster id found in event"]⟩ := by
  simp [processTwitchEvent, h]

/-- Witness for `c1_amended_throws` at a concrete no-tenant payload. -/
theorem c1_amended_witness :
    processTwitchEvent emptyRegistry emptyDb "stream.online" noTenantEvent =
      ⟨JsResult.thrown "No broadcaster id found in event",
       [Action.logLine "No broadcaster id found in event"]⟩ :=
  c1_amended_throws emptyRegistry emptyDb "stream.online" noTenantEvent (by decide)

/-- Claim C10: when the resolved broadcaster id has no matching row in
`integrations_twitch` (or the lookup errors), `processTwitchEvent` returns
normally after one log line, with no handler-map lookup, no tenant-scoped
`TwitchApi` construction, and no handler invocation. -/
theorem c10_unknown_broadcaster_dropped (reg : Registry) (db : Db)
    (eventType : String) (data : Ev) (bid : String)
    (h1 : extractReceivingBroadcasterId data = some bid)
    (h2 : db bid = .error ()) :
    processTwitchEvent reg db eventType data =
      ⟨JsResult.ok (), [Action.dbLookup bid,
        Action.logLine "Broadcaster not found in database"]⟩ ∧
    (∀ t, Action.handlerMapLookup t ∉
        (processTwitchEvent reg db eventType data).actions) ∧
    (∀ b, Action.buildTwitchApi b ∉
        (processTwitchEvent reg db eventType data).actions) ∧
    (∀ t, Action.handlerInvoked t ∉
        (processTwitchEvent reg db eventType data).actions) := by
  have hmain : processTwitchEvent reg db eventType data =
      ⟨JsResult.ok (), [Action.dbLookup bid,
        Action.logLine "Broadcaster not found in database"]⟩ := by
    simp [processTwitchEvent, h1, h2]
  refine ⟨hmain, ?_, ?_, ?_⟩ <;> intro x <;> rw [hmain] <;> simp

/-- Witness for `c10_unknown_broadcaster_dropped`: a resolvable broadcaster
id that is absent from the database. -/
theorem c10_witness :
    processTwitchEvent emptyRegistry emptyDb "channel.follow"
        broadcasterEvent =
      ⟨JsResult.ok (), [Action.dbLookup "42",
        Action.logLine "Broadcaster not found in database"]⟩ ∧
    (∀ t, Action.handlerMapLookup t ∉
        (processTwitchEvent emptyRegistry emptyDb "channel.follow"
          broadcasterEvent).actions) ∧
    (∀ b, Action.buildTwitchApi b ∉
        (processTwitchEvent emptyRegistry emptyDb "channel.follow"
          broadcasterEvent).actions) ∧
    (∀ t, Action.handlerInvoked t ∉
        (processTwitchEvent emptyRegistry emptyDb "channel.follow"
          broadcasterEvent).actions) :=
  c10_unknown_broadcaster_dropped emptyRegistry emptyDb "channel.follow"
    broadcasterEvent "42" (by decide) rfl

/-- Claim C8: an exception thrown by the payload validator or by the
application handler is caught inside the wrapper installed by
`registerTwitchHandler` and only logged — the wrapped handler always
resolves normally; consequently, dispatching two events of a type whose
handler throws followed by one event of a different registered type leaves
every dispatch resolving normally and still invokes the handler of the
second type. -/
theorem c8_handler_isolation (reg : Registry) (db : Db)
    (entryX entryY : RegEntry) (tX tY : String) (eX eY : Ev)
    (bidX uidX bidY uidY : String) (pX pY : Ev) (msg : String)
    (hregX : reg tX = some entryX) (hregY : reg tY = some entryY)
    (hX1 : extractReceivingBroadcasterId eX = some bidX)
    (hX2 : db bidX = .ok uidX)
    (hXv : entryX.validate eX = .ok pX)
    (hXh : entryX.handler pX ⟨⟨bidX⟩⟩ = .thrown msg)
    (hY1 : extractReceivingBroadcasterId eY = some bidY)
    (hY2 : db bidY = .ok uidY)
    (hYv : entryY.validate eY = .ok pY) :
    (∀ (entry : RegEntry) (et : String) (d : Ev) (c : RestApiHandlerContext),
        (runWrapped entry et d c).result = JsResult.ok ()) ∧
    (dispatchList reg db [(tX, eX), (tX, eX), (tY, eY)]).map
        (fun r => r.result) =
      [JsResult.ok (), JsResult.ok (), JsResult.ok ()] ∧
    Action.handlerInvoked tY ∈
      ((dispatchList reg db [(tX, eX), (tX, eX), (tY, eY)]).getD 2
        ⟨JsResult.ok (), []⟩).actions := by
  have hwrap : ∀ (entry : RegEntry) (et : String) (d : Ev)
      (c : RestApiHandlerContext),
      (runWrapped entry et d c).result = JsResult.ok () := by
    intro entry et d c
    cases hv : entry.validate d with
    | thrown e => simp [runWrapped, hv]
    | ok p => cases hh : entry.handler p c <;> simp [runWrapped, hv, hh]
  have hXcall : processTwitchEvent reg db tX eX =
      ⟨JsResult.ok (), [Action.dbLookup bidX, Action.handlerMapLookup tX,
        Action.buildTwitchApi bidX, Action.handlerInvoked tX,
        Action.logLine ("Error in handler for " ++ tX)]⟩ := by
    simp [processTwitchEvent, hX1, hX2, hregX, runWrapped, hXv, hXh]
  have hYcall : (processTwitchEvent reg db tY eY).result = JsResult.ok () ∧
      Action.handlerInvoked tY ∈ (processTwitchEvent reg db tY eY).actions := by
    cases hYh : entryY.handler pY ⟨⟨bidY⟩⟩ <;>
      simp [processTwitchEvent, hY1, hY2, hregY, runWrapped, hYv, hYh]
  refine ⟨hwrap, ?_, ?_⟩
  · simp [dispatchList, hXcall, hYcall.1]
  · simpa [dispatchList] using hYcall.2

/-- Witness for `c8_handler_isolation` on the concrete two-type registry:
`channel.follow` throws, `stream.online` succeeds. -/
theorem c8_witness :
    (∀ (entry : RegEntry) (et : String) (d : Ev) (c : RestApiHandlerContext),
        (runWrapped entry et d c).result = JsResult.ok ()) ∧
    (dispatchList twoTypeRegistry allKnownDb
        [("channel.follow", broadcasterEvent),
         ("channel.follow", broadcasterEvent),
         ("stream.online", broadcasterEvent)]).map (fun r => r.result) =
      [JsResult.ok (), JsResult.ok (), JsResult.ok ()] ∧
    Action.handlerInvoked "stream.online" ∈
      ((dispatchList twoTypeRegistry allKnownDb
        [("channel.follow", broadcasterEvent),
         ("channel.follow", broadcasterEvent),
         ("stream.online", broadcasterEvent)]).getD 2
        ⟨JsResult.ok (), []⟩).actions :=
  c8_handler_isolation twoTypeRegistry allKnownDb throwingEntry okEntry
    "channel.follow" "stream.online" broadcasterEvent broadcasterEvent
    "42" "user-1" "42" "user-1" broadcasterEvent broadcasterEvent "boom"
    (by simp [twoTypeRegistry]) (by simp [twoTypeRegistry])
    (by decide) rfl rfl rfl (by decide) rfl rfl

/-- A signature verifier that accepts every request. -/
def verifyAlways : Verify := fun _ _ _ _ => true

/-- A JSON parse yielding a verification payload whose challenge is the
empty string. -/
def parseEmptyChallenge : Parse :=
  fun _ => some ⟨some "", ⟨"sub-1", "channel.follow"⟩, none⟩

/-- A JSON parse yielding a verification payload with challenge
`"abc123"`. -/
def parseChallengeAbc : Parse :=
  fun _ => some ⟨some "abc123", ⟨"sub-1", "channel.follow"⟩, none⟩

/-- A webhook request carrying all four Twitch headers with message type
`webhook_callback_verification`. -/
def verificationRequest : WebhookRequest :=
  ⟨[(TWITCH_MESSAGE_ID, "m1"),
    (TWITCH_MESSAGE_TIMESTAMP, "2026-01-01T00:00:00Z"),
    (TWITCH_MESSAGE_SIGNATURE, "sha256=aa"),
    (TWITCH_MESSAGE_TYPE, MESSAGE_TYPE_VERIFICATION)], "body"⟩

/-- Claim C2, counterexample: a request with all four headers present, a
valid signature and message type `webhook_callback_verification` whose
payload challenge is the empty string is answered 400, not 200 with the
challenge string from the payload — so the verification clause of the claim
is false on the code. -/
theorem c2_counterexample :
    handleWebhookRequest verifyAlways parseEmptyChallenge emptyRegistry
        emptyDb verificationRequest = .ok ⟨400, .jsonError⟩ ∧
    handleWebhookRequest verifyAlways parseEmptyChallenge emptyRegistry
        emptyDb verificationRequest ≠ .ok ⟨200, .text ""⟩ := by
  refine ⟨by decide, by decide⟩

/-- Claim C2 as amended: missing (or empty) required header ⇒ 400; headers
present but invalid signature ⇒ 403; valid signature but unparseable JSON
body ⇒ 400; valid signature and `webhook_callback_verification` ⇒ 200 with
the challenge string when the parsed body carries a non-empty challenge,
else 400; valid signature and `notification` ⇒ 204 with empty body when
event processing resolves normally, and the processing exception propagates
out of the route (no 204) when it throws; valid signature and `revocation`
⇒ 204 with empty body. -/
theorem c2_amended (verify : Verify) (parse : Parse) (reg : Registry)
    (db : Db) (req : WebhookRequest) (mid ts sig mt : String)
    (body : NotificationBody) (chal err : String) :
    ((jsFalsyStr (getTwitchHeader req.headers TWITCH_MESSAGE_ID) = true ∨
      jsFalsyStr (getTwitchHeader req.headers TWITCH_MESSAGE_TIMESTAMP) = true ∨
      jsFalsyStr (getTwitchHeader req.headers TWITCH_MESSAGE_SIGNATURE) = true ∨
      jsFalsyStr (getTwitchHeader req.headers TWITCH_MESSAGE_TYPE) = true) →
      handleWebhookRequest verify parse reg db req = .ok ⟨400, .jsonError⟩) ∧
    (getTwitchHeader req.headers TWITCH_MESSAGE_ID = some mid → mid ≠ "" →
     getTwitchHeader req.headers TWITCH_MESSAGE_TIMESTAMP = some ts → ts ≠ "" →
     getTwitchHeader req.headers TWITCH_MESSAGE_SIGNATURE = some sig → sig ≠ "" →
     getTwitchHeader req.headers TWITCH_MESSAGE_TYPE = some mt → mt ≠ "" →
     ((verify mid ts req.rawBody sig = false →
        handleWebhookRequest verify parse reg db req = .ok ⟨403, .jsonError⟩) ∧
      (verify mid ts req.rawBody sig = true →
       ((parse req.rawBody = none →
          handleWebhookRequest verify parse reg db req = .ok ⟨400, .jsonError⟩) ∧
        (parse req.rawBody = some body →
         ((mt = MESSAGE_TYPE_VERIFICATION →
           ((body.challenge = some chal → chal ≠ "" →
              handleWebhookRequest verify parse reg db req =
                .ok ⟨200, .text chal⟩) ∧
            ((body.challenge = none ∨ body.challenge = some "") →
              handleWebhookRequest verify parse reg db req =
                .ok ⟨400, .jsonError⟩))) ∧
          (mt = MESSAGE_TYPE_NOTIFICATION →
           (((handleEventsub reg db body).result = JsResult.ok () →
              handleWebhookRequest verify parse reg db req =
                .ok ⟨204, .empty⟩) ∧
            ((handleEventsub reg db body).result = JsResult.thrown err →
              handleWebhookRequest verify parse reg db req = .error err))) ∧
          (mt = MESSAGE_TYPE_REVOCATION →
            handleWebhookRequest verify parse reg db req =
              .ok ⟨204, .empty⟩))))))) := by
  constructor
  · intro h
    rcases h with h | h | h | h <;> simp [handleWebhookRequest, h]
  · intro hid hmid hts hts0 hsig hsig0 hmt hmt0
    constructor
    · intro hv
      simp [handleWebhookRequest, hid, hts, hsig, hmt, jsFalsyStr,
        hmid, hts0, hsig0, hmt0, hv]
    · intro hv
      constructor
      · intro hp
        simp [handleWebhookRequest, hid, hts, hsig, hmt, jsFalsyStr,
          hmid, hts0, hsig0, hmt0, hv, hp]
      · intro hp
        refine ⟨?_, ?_, ?_⟩
        · intro hmtv
          subst hmtv
          constructor
          · intro hc hc0
            simp [handleWebhookRequest, hid, hts, hsig, hmt, jsFalsyStr,
              hmid, hts0, hsig0, hmt0, hv, hp, hc, hc0]
          · intro hc
            rcases hc with hc | hc <;>
              simp [handleWebhookRequest, hid, hts, hsig, hmt, jsFalsyStr,
                hmid, hts0, hsig0, hmt0, hv, hp, hc]
        · intro hmtn
          subst hmtn
          constructor
          · intro hr
            simp [handleWebhookRequest, hid, hts, hsig, hmt, jsFalsyStr,
              hmid, hts0, hsig0, hmt0, hv, hp, hr,
              MESSAGE_TYPE_NOTIFICATION, MESSAGE_TYPE_VERIFICATION]
          · intro hr
            simp [handleWebhookRequest, hid, hts, hsig, hmt, jsFalsyStr,
              hmid, hts0, hsig0, hmt0, hv, hp, hr,
              MESSAGE_TYPE_NOTIFICATION, MESSAGE_TYPE_VERIFICATION]
        · intro hmtr
          subst hmtr
          simp [handleWebhookRequest, hid, hts, hsig, hmt, jsFalsyStr,
            hmid, hts0, hsig0, hmt0, hv, hp,
            MESSAGE_TYPE_REVOCATION, MESSAGE_TYPE_VERIFICATION,
            MESSAGE_TYPE_NOTIFICATION]

/-- Witness for `c2_amended`: the verification-challenge scenario — all
headers present, valid signature, challenge `"abc123"` — yields 200 with
body exactly `abc123`. -/
theorem c2_witness :
    handleWebhookRequest verifyAlways parseChallengeAbc emptyRegistry
        emptyDb verificationRequest = .ok ⟨200, .text "abc123"⟩ := by
  have h := c2_amended verifyAlways parseChallengeAbc emptyRegistry emptyDb
    verificationRequest "m1" "2026-01-01T00:00:00Z" "sha256=aa"
    MESSAGE_TYPE_VERIFICATION ⟨some "abc123", ⟨"sub-1", "channel.follow"⟩, none⟩
    "abc123" "unused"
  exact ((((h.2 rfl (by decide) rfl (by decide) rfl (by decide) rfl
    (by decide)).2 rfl).2 rfl).1 rfl).1 rfl (by decide)

/-- A wire that answers every request with HTTP 401. -/
def always401 : ℕ → ReqOutcome := fun _ => .httpError 401

/-- A refresh that always succeeds with a fresh token. -/
def refreshAlwaysOk : ℕ → RefreshOutcome := fun _ => .returned (some "tok-new")

/-- Bounds on one outbound call: starting with `remaining` retry budget, at
most `remaining + 1` wire requests and `remaining` refreshes are issued. -/
theorem runClientCall_bounds (responses : ℕ → ReqOutcome)
    (refresh : ℕ → RefreshOutcome) :
    ∀ (remaining requestsMade refreshesMade : ℕ),
      (runClientCall responses refresh requestsMade refreshesMade
          remaining).requests ≤ requestsMade + remaining + 1 ∧
      (runClientCall responses refresh requestsMade refreshesMade
          remaining).refreshes ≤ refreshesMade + remaining := by
  intro remaining
  induction remaining with
  | zero =>
    intro rq rf
    cases hr : responses rq with
    | success => simp [runClientCall, hr]
    | httpError s =>
      by_cases h4 : s = 401 <;> simp [runClientCall, hr, h4]
  | succ r ih =>
    intro rq rf
    cases hr : responses rq with
    | success => simp [runClientCall, hr]
    | httpError s =>
      by_cases h4 : s = 401
      · subst h4
        cases hf : refresh rf with
        | threw => simp [runClientCall, hr, hf]
        | returned tok =>
          cases ht : jsFalsyStr tok with
          | true => simp [runClientCall, hr, hf, ht]
          | false =>
            have hrec := ih (rq + 1) (rf + 1)
            rw [runClientCall]
            simp [hr, hf, ht]
            all_goals omega
      · simp [runClientCall, hr, h4]

/-- Claim C3, counterexample: with every wire response 401 and every refresh
succeeding, one outbound call issues THREE wire requests and TWO token
refreshes before propagating the error — not the "exactly one refresh and
one retry" the claim states (`MAX_RETRIES = 2`). -/
theorem c3_counterexample :
    clientRequest always401 refreshAlwaysOk =
      ⟨CallOutcome.errHttp 401, 3, 2⟩ ∧
    ¬ (clientRequest always401 refreshAlwaysOk).refreshes ≤ 1 := by
  refine ⟨rfl, by decide⟩

/-- Claim C3 as amended: on HTTP 401 the per-tenant client refreshes the
token and retries, with the retry count tracked per outbound call on the
request config, but up to `MAX_RETRIES = 2` refresh-and-retry cycles rather
than exactly one: at most 3 wire requests and 2 refreshes per call; a 401
answered on the third request (after two refreshes) propagates with no
further retry; an immediate success or non-401 error involves no refresh. -/
theorem c3_amended (responses : ℕ → ReqOutcome)
    (refresh : ℕ → RefreshOutcome) (s : ℕ) (tok tok2 : String) :
    (clientRequest responses refresh).requests ≤ MAX_RETRIES + 1 ∧
    (clientRequest responses refresh).refreshes ≤ MAX_RETRIES ∧
    (responses 0 = .success →
      clientRequest responses refresh = ⟨CallOutcome.ok, 1, 0⟩) ∧
    (responses 0 = .httpError s → s ≠ 401 →
      clientRequest responses refresh = ⟨CallOutcome.errHttp s, 1, 0⟩) ∧
    (responses 0 = .httpError 401 → refresh 0 = .returned (some tok) →
      tok ≠ "" → responses 1 = .success →
      clientRequest responses refresh = ⟨CallOutcome.ok, 2, 1⟩) ∧
    (responses 0 = .httpError 401 → responses 1 = .httpError 401 →
      responses 2 = .httpError 401 → refresh 0 = .returned (some tok) →
      refresh 1 = .returned (some tok2) → tok ≠ "" → tok2 ≠ "" →
      clientRequest responses refresh = ⟨CallOutcome.errHttp 401, 3, 2⟩) := by
  have hb := runClientCall_bounds responses refresh MAX_RETRIES 0 0
  refine ⟨?_, ?_, ?_, ?_, ?_, ?_⟩
  · simpa [clientRequest] using hb.1
  · simpa [clientRequest] using hb.2
  · intro h0
    simp [clientRequest, MAX_RETRIES, runClientCall, h0]
  · intro h0 hs
    simp [clientRequest, MAX_RETRIES, runClientCall, h0, hs]
  · intro h0 hf ht h1
    simp [clientRequest, MAX_RETRIES, runClientCall, h0, hf, h1,
      jsFalsyStr, ht]
  · intro h0 h1 h2 hf0 hf1 ht ht2
    simp [clientRequest, MAX_RETRIES, runClientCall, h0, h1, h2, hf0, hf1,
      jsFalsyStr, ht, ht2]

/-- Witness for `c3_amended`: the all-401 wire with always-working refresh
exhausts both retries and propagates the 401. -/
theorem c3_witness :
    clientRequest always401 refreshAlwaysOk =
      ⟨CallOutcome.errHttp 401, 3, 2⟩ := by
  have h := c3_amended always401 refreshAlwaysOk 401 "tok-new" "tok-new"
  exact h.2.2.2.2.2 rfl rfl rfl rfl rfl (by decide) (by decide)

/-- Claim C4, counterexample: with the default base delay 1000 ms and cap
30000 ms, at attempt 5 and jitter 0 the computed delay is 30000 ms, which is
below the claimed lower bound `base * 2^5 = 32000` — the claimed interval
`[base*2^attempt, base*2^attempt + 1000]` does not hold once the cap binds. -/
theorem c4_counterexample :
    getReconnectDelay defaultBaseReconnectDelay defaultMaxReconnectDelay 5 0 =
      30000 ∧
    ¬ (defaultBaseReconnectDelay * 2 ^ 5 ≤
        getReconnectDelay defaultBaseReconnectDelay defaultMaxReconnectDelay
          5 0) := by
  constructor
  · norm_num [getReconnectDelay, defaultBaseReconnectDelay,
      defaultMaxReconnectDelay, min_def]
  · norm_num [getReconnectDelay, defaultBaseReconnectDelay,
      defaultMaxReconnectDelay, min_def]

/-- Claim C4 as amended: for every attempt and every jitter in `[0, 1000)`,
the reconnect delay lies in the interval
`[min(base*2^attempt, cap), min(base*2^attempt, cap) + 1000]` and never
exceeds `cap + 1000`. -/
theorem c4_amended (base cap : ℚ) (attempt : ℕ) (jitter : ℚ)
    (h0 : 0 ≤ jitter) (h1 : jitter < 1000) :
    min (base * 2 ^ attempt) cap ≤ getReconnectDelay base cap attempt jitter ∧
    getReconnectDelay base cap attempt jitter ≤
      min (base * 2 ^ attempt) cap + 1000 ∧
    getReconnectDelay base cap attempt jitter ≤ cap + 1000 := by
  unfold getReconnectDelay
  have hm : min (base * 2 ^ attempt) cap ≤ cap := min_le_right _ _
  exact ⟨by linarith, by linarith, by linarith⟩

/-- Witness for `c4_amended` at the default configuration, attempt 0 and
jitter 500. -/
theorem c4_witness :
    min (defaultBaseReconnectDelay * 2 ^ 0) defaultMaxReconnectDelay ≤
      getReconnectDelay defaultBaseReconnectDelay defaultMaxReconnectDelay
        0 500 ∧
    getReconnectDelay defaultBaseReconnectDelay defaultMaxReconnectDelay
        0 500 ≤
      min (defaultBaseReconnectDelay * 2 ^ 0) defaultMaxReconnectDelay +
        1000 ∧
    getReconnectDelay defaultBaseReconnectDelay defaultMaxReconnectDelay
        0 500 ≤ defaultMaxReconnectDelay + 1000 :=
  c4_amended defaultBaseReconnectDelay defaultMaxReconnectDelay 0 500
    (by norm_num) (by norm_num)

/-- Claim C5: the close-code policy of `handleClose` is exactly — 4001 never
reconnects; 4003 and 4007 clear the stored reconnect URL and schedule a
reconnect; 1000 schedules a reconnect only when a reconnect URL is known;
every other close code schedules a reconnect with the stored URL (the best
available) untouched. -/
theorem c5_close_code_policy (url : Option String) (c : ℕ) :
    handleCloseDecision 4001 url = (url, false) ∧
    handleCloseDecision 4003 url = (none, true) ∧
    handleCloseDecision 4007 url = (none, true) ∧
    handleCloseDecision 1000 url = (url, url.isSome) ∧
    (c ≠ 4001 → c ≠ 4003 → c ≠ 4007 → c ≠ 1000 →
      handleCloseDecision c url = (url, true)) := by
  refine ⟨rfl, rfl, rfl, rfl, ?_⟩
  intro h1 h2 h3 h4
  unfold handleCloseDecision
  split <;> simp_all

/-- Witness for `c5_close_code_policy` at close code 4006 (network error)
with a stored reconnect URL. -/
theorem c5_witness :
    handleCloseDecision 4006 (some "wss://example") =
      (some "wss://example", true) :=
  (c5_close_code_policy (some "wss://example") 4006).2.2.2.2
    (by decide) (by decide) (by decide) (by decide)

/-- Claim C6, counterexample: after a check that found the keepalive on
time, the NEXT check is scheduled `intervalSeconds * 1000` ms later (here
10000 ms for a 10-second interval), not `(intervalSeconds + 2)` seconds
later as the claim states — only the first check after `startKeepaliveTimer`
uses the `+2` delay. -/
theorem c6_counterexample :
    (checkKeepalive 10 6000 0 0 10).nextCheckDelayMs = some 10000 ∧
    (checkKeepalive 10 6000 0 0 10).nextCheckDelayMs ≠
      some (startKeepaliveDelayMs 10) := by
  refine ⟨rfl, by decide⟩

/-- Claim C6 as amended: the first keepalive check runs
`(intervalSeconds + 2)` seconds after the timer starts; each subsequent
check is scheduled `intervalSeconds` seconds after the previous one.  Each
check compares `now - lastKeepaliveAt` against
`intervalSeconds*1000 + 2000`, incrementing `missedKeepalives` exactly once
when exceeded; when the incremented counter reaches the configured ceiling
the socket is forcibly closed and no further check is scheduled. -/
theorem c6_amended (interval now last missed maxM : ℕ) :
    startKeepaliveDelayMs interval = (interval + 2) * 1000 ∧
    (now - last > interval * 1000 + 2000 → missed + 1 ≥ maxM →
      checkKeepalive interval now last missed maxM =
        ⟨missed + 1, true, none⟩) ∧
    (now - last > interval * 1000 + 2000 → missed + 1 < maxM →
      checkKeepalive interval now last missed maxM =
        ⟨missed + 1, false, some (interval * 1000)⟩) ∧
    (¬ now - last > interval * 1000 + 2000 →
      checkKeepalive interval now last missed maxM =
        ⟨missed, false, some (interval * 1000)⟩) := by
  refine ⟨rfl, ?_, ?_, ?_⟩
  · intro h1 h2
    simp [checkKeepalive, h1, h2]
  · intro h1 h2
    have h2x : ¬ missed + 1 ≥ maxM := by omega
    simp [checkKeepalive, h1, h2x]
  · intro h1
    simp [checkKeepalive, h1]

/-- Witness for `c6_amended`: a 10-second interval, a keepalive missed by a
wide margin, and the counter one below the ceiling — the socket is closed
and nothing is rescheduled. -/
theorem c6_witness :
    startKeepaliveDelayMs 10 = (10 + 2) * 1000 ∧
    checkKeepalive 10 20000 0 9 10 = ⟨10, true, none⟩ :=
  ⟨(c6_amended 10 20000 0 9 10).1,
   (c6_amended 10 20000 0 9 10).2.1 (by norm_num) (by norm_num)⟩

/-- Claim C7, counterexample: from a disconnected state with 3 prior
attempts and a stored reconnect URL, `reconnect()` constructs the socket
and immediately sets `connected` and resets the attempt counter to 0 —
before any transport open event fires — instead of retaining the
incremented value 4 until the connection is confirmed. -/
theorem c7_counterexample :
    (reconnectStep 10 ⟨.disconnected, 3, some "wss://re"⟩ false).fst =
      ⟨ConnectionState.connected, 0, some "wss://re"⟩ ∧
    (reconnectStep 10 ⟨.disconnected, 3, some "wss://re"⟩ false).snd =
      [ConnAction.openedSocket (some "wss://re")] ∧
    (0 : ℕ) ≠ 3 + 1 := by
  refine ⟨rfl, rfl, by norm_num⟩

/-- Claim C7 as amended: the reconnect attempt counter increments on every
reconnect attempt and is reset to 0 by the transport open callback; in the
fresh-connect path (no stored reconnect URL) the incremented value is
retained while the connection is pending, but in the stored-reconnect-URL
path `reconnect()` resets the counter to 0 (and marks the state connected)
immediately after constructing the socket, before the open event fires. -/
theorem c7_amended (maxA : ℕ) (s : ReceiverState) (url : String)
    (h1 : s.connectionState ≠ .connecting)
    (h2 : s.connectionState ≠ .reconnecting)
    (h3 : s.reconnectAttempts < maxA) :
    (s.reconnectUrl = some url →
      reconnectStep maxA s false =
        (⟨.connected, 0, some url⟩, [ConnAction.openedSocket (some url)])) ∧
    (s.reconnectUrl = none →
      reconnectStep maxA s false =
        (⟨.connecting, s.reconnectAttempts + 1, none⟩,
         [ConnAction.openedSocket none])) ∧
    (onOpen s).reconnectAttempts = 0 ∧
    (onOpen s).connectionState = .connected := by
  obtain ⟨cs, ra, ru⟩ := s
  simp only at h1 h2 h3
  have h3x : ¬ ra ≥ maxA := by omega
  refine ⟨?_, ?_, rfl, rfl⟩
  · intro hu
    subst hu
    simp [reconnectStep, h1, h2, h3x]
  · intro hu
    subst hu
    simp [reconnectStep, connectStep, h1, h2, h3x]

/-- Witness for `c7_amended`: the fresh-connect path from a disconnected
state with 2 prior attempts retains the incremented counter value 3. -/
theorem c7_witness :
    reconnectStep 10 ⟨.disconnected, 2, none⟩ false =
      (⟨.connecting, 2 + 1, none⟩, [ConnAction.openedSocket none]) ∧
    (onOpen ⟨.disconnected, 2, none⟩).reconnectAttempts = 0 := by
  have h := c7_amended 10 ⟨.disconnected, 2, none⟩ "unused"
    (by decide) (by decide) (by norm_num)
  exact ⟨h.2.1 rfl, h.2.2.1⟩

/-- Claim C9: for an app-authenticated call whose stored app token is
expired at request time, the request interceptor issues a refresh call, yet
the Authorization header attached to the outgoing request is built from the
pre-refresh `access_token` row value — never from the newly refreshed
token when the two differ. -/
theorem c9_stale_app_token_header (row : TwitchAppTokenRow) (now : ℕ)
    (newToken : String)
    (hexp : checkTokenExpiry row.updated_at row.expires_in now = true)
    (hne : newToken ≠ "") :
    appInterceptorRequest row now (.ok (some newToken)) =
      .ok ("Bearer " ++ row.access_token, true) ∧
    (newToken ≠ row.access_token →
      appInterceptorRequest row now (.ok (some newToken)) ≠
        .ok ("Bearer " ++ newToken, true)) := by
  have hmain : appInterceptorRequest row now (.ok (some newToken)) =
      .ok ("Bearer " ++ row.access_token, true) := by
    simp [appInterceptorRequest, hexp, jsFalsyStr, hne]
  refine ⟨hmain, ?_⟩
  intro hdiff hcontra
  rw [hmain] at hcontra
  have hpair : ("Bearer " ++ row.access_token, true) =
      (("Bearer " ++ newToken : String), true) := by
    injection hcontra
  have hstr : "Bearer " ++ row.access_token = "Bearer " ++ newToken :=
    congrArg Prod.fst hpair
  have hdata : ("Bearer ").data ++ row.access_token.data =
      ("Bearer ").data ++ newToken.data := by
    have := congrArg String.data hstr
    simpa [String.data_append] using this
  exact hdiff (String.ext (List.append_cancel_left hdata)).symm

/-- Witness for `c9_stale_app_token_header`: a token updated at epoch 0
with one-hour expiry, used well past expiry. -/
theorem c9_witness :
    appInterceptorRequest ⟨"old-token", 3600, 0⟩ 5000000
        (.ok (some "new-token")) =
      .ok ("Bearer " ++ "old-token", true) ∧
    ("new-token" ≠ "old-token" →
      appInterceptorRequest ⟨"old-token", 3600, 0⟩ 5000000
          (.ok (some "new-token")) ≠
        .ok ("Bearer " ++ "new-token", true)) :=
  c9_stale_app_token_header ⟨"old-token", 3600, 0⟩ 5000000 "new-token"
    (by decide) (by decide)

end StreamWizard
